import Mathlib

/-!
Verification of the task-manager service core: the authentication /
authorization middleware chain and the task query layer (filtering,
pagination, sorting, ownership scoping), shallowly embedded from the
TypeScript sources (`src/routes/taskRoutes.ts`,
`src/middleware/authMiddleware.ts`, `src/server.ts`, auth routes).

Strings from JavaScript are modelled as Lean `String`; `undefined` /
absent values as `Option`; the result of JavaScript `Number(...)`
conversion as `JsNum` (NaN or an exact rational); Mongo documents as a
`List Task` store.  All string helpers are re-implemented structurally
so that every definition evaluates inside the kernel.
-/

namespace TaskManager

/-! ### String helpers (structural re-implementations of the library
    functions used by the source: trim, toLowerCase, split(":")) -/

/-- ASCII lower-casing of one character, as `String.prototype.toLowerCase`
behaves on the ASCII inputs of this code base. -/
def charToLower (c : Char) : Char :=
  if 65 ≤ c.toNat && c.toNat ≤ 90 then Char.ofNat (c.toNat + 32) else c

/-- `s.toLowerCase()` on ASCII strings. -/
def strToLower (s : String) : String :=
  String.mk (s.toList.map charToLower)

/-- Whitespace recognised by `trim` (ASCII subset). -/
def isWsChar (c : Char) : Bool :=
  c == ' ' || c == '\t' || c == '\n' || c == '\r'

/-- `s.trim()`: drop whitespace at both ends. -/
def strTrim (s : String) : String :=
  String.mk (((s.toList.dropWhile isWsChar).reverse.dropWhile isWsChar).reverse)

/-- `split` on a single separator character, with JavaScript semantics:
`"".split(":") = [""]`, `":".split(":") = ["", ""]`. -/
def splitOnChar (sep : Char) : List Char → List (List Char)
  | [] => [[]]
  | c :: cs =>
    if c == sep then [] :: splitOnChar sep cs
    else
      match splitOnChar sep cs with
      | [] => [[c]]
      | w :: ws => (c :: w) :: ws

/-- `s.split(":")`. -/
def splitColon (s : String) : List String :=
  (splitOnChar ':' s.toList).map String.mk

/-- Is `needle` a leading segment of `hay`? -/
def leadsList (needle hay : List Char) : Bool :=
  match needle, hay with
  | [], _ => true
  | _ :: _, [] => false
  | a :: as, b :: bs => a == b && leadsList as bs

/-- Does `hay` contain `needle` as a contiguous segment?  Models the
`$regex` title filter for patterns without metacharacters. -/
def containsSub (needle : List Char) : List Char → Bool
  | [] => needle.isEmpty
  | c :: cs => leadsList needle (c :: cs) || containsSub needle cs

/-! ### Data model -/

/-- A task document (`src/models/Task.ts` shape as used by the routes). -/
structure Task where
  id : String
  title : String
  description : String
  status : String
  createdBy : String
  createdAt : Nat
  deriving DecidableEq, Repr

/-- The identity the Authenticate interceptor attaches to the request
context (`req.user`). -/
structure ReqUser where
  id : String
  role : String
  deriving DecidableEq, Repr

/-- `mongoose.Types.ObjectId.isValid`: true for any 12-character string
or a 24-character hex string. -/
def isHexDigit (c : Char) : Bool :=
  c.isDigit || (97 ≤ c.toNat && c.toNat ≤ 102) || (65 ≤ c.toNat && c.toNat ≤ 70)

def isValidObjectId (s : String) : Bool :=
  s.length == 12 || (s.length == 24 && s.toList.all isHexDigit)

/-- Result of JavaScript `Number(...)` on a query value: NaN or an exact
numeric value (modelled as a rational). -/
inductive JsNum where
  | nan
  | num (q : ℚ)
  deriving DecidableEq, Repr

/-! ### Pagination and sorting (`taskRoutes.ts`, `parsePaginationParams`
    and the sort-parameter handling shared by `getAllTasks`/`getTasks`) -/

/-- `parsePaginationParams` (taskRoutes.ts lines 10-19): absent `page`
defaults to 1, absent `limit` to 10; NaN or a value below 1 falls back
to the default; otherwise floor, with `limit` capped at 100. -/
def parsePaginationParams (pageQ limitQ : Option JsNum) : Int × Int :=
  let rawPage := pageQ.getD (JsNum.num 1)
  let rawLimit := limitQ.getD (JsNum.num 10)
  let page : Int :=
    match rawPage with
    | JsNum.nan => 1
    | JsNum.num q => if q < 1 then 1 else ⌊q⌋
  let limit : Int :=
    match rawLimit with
    | JsNum.nan => 10
    | JsNum.num q => if q < 1 then 10 else min ⌊q⌋ 100
  (page, limit)

/-- `const [sortField = "createdAt", sortDir = "desc"] = sortParam.split(":")`
followed by `sortDir.toLowerCase() === "asc" ? 1 : -1`. -/
def parseSortPair (sortParam : String) : String × Int :=
  let parts := splitColon sortParam
  let sortField := (parts.get? 0).getD "createdAt"
  let sortDir := (parts.get? 1).getD "desc"
  (sortField, if strToLower sortDir == "asc" then 1 else -1)

/-! ### Query layer shared by `getAllTasks` and `getTasks` -/

/-- Query parameters of a list request.  `none` models an absent (or
non-string, for `search`/`sort`) query value. -/
structure ListQuery where
  page : Option JsNum
  limit : Option JsNum
  search : Option String
  sort : Option String
  deriving Repr

/-- Case-insensitive title match (`filter.title = {$regex: search,
$options: "i"}` for metacharacter-free patterns). -/
def titleMatches (search : String) (t : Task) : Bool :=
  containsSub (strToLower search).toList (strToLower t.title).toList

/-- The Mongo filter document: optional `createdBy` equality plus the
title regex, the latter only when `search` is non-empty. -/
def matchesFilter (ownerFilter : Option String) (search : String) (t : Task) : Bool :=
  (match ownerFilter with
   | some o => t.createdBy == o
   | none => true)
  && (search == "" || titleMatches search t)

/-- The single-field sort key (`sortObj[sortField] = dir`): project the
named field of the document; unknown fields compare equal. -/
def taskFieldKey (field : String) (t : Task) : String :=
  if field == "title" then t.title
  else if field == "description" then t.description
  else if field == "status" then t.status
  else if field == "createdBy" then t.createdBy
  else if field == "createdAt" then toString t.createdAt
  else ""

/-- Comparator fed to the sort: ascending on the key when `dir = 1`,
descending otherwise. -/
def sortLe (field : String) (dir : Int) (a b : Task) : Bool :=
  if dir == 1 then decide (taskFieldKey field a ≤ taskFieldKey field b)
  else decide (taskFieldKey field b ≤ taskFieldKey field a)

/-- Insert into a sorted run, keeping the comparator order. -/
def orderedInsert (le : Task → Task → Bool) (a : Task) : List Task → List Task
  | [] => [a]
  | b :: bs => if le a b then a :: b :: bs else b :: orderedInsert le a bs

/-- The database sort on the single-field comparator, modelled as a
comparator-respecting reordering (insertion sort). -/
def sortTasks (le : Task → Task → Bool) : List Task → List Task
  | [] => []
  | a :: as => orderedInsert le a (sortTasks le as)

/-- Successful payload of a list response. -/
structure PageData where
  items : List Task
  page : Int
  limit : Int
  total : Nat
  totalPages : Nat
  deriving DecidableEq, Repr

/-- Outcome of a list handler. -/
inductive ListOutcome where
  | err (status : Nat) (message : String)
  | ok (d : PageData)
  deriving DecidableEq, Repr

/-- The query pipeline shared by `getAllTasks` and `getTasks`
(taskRoutes.ts lines 65-106 and 139-176): parse page/limit, trim
`search` (absent means no title filter), default the sort parameter to
`"createdAt:desc"`, filter, count, sort, skip `(page-1)*limit`, take
`limit`, and compute `totalPages = max(1, ceil(total/limit))`. -/
def runListQuery (ownerFilter : Option String) (q : ListQuery) (store : List Task) :
    PageData :=
  let pl := parsePaginationParams q.page q.limit
  let page := pl.1
  let limit := pl.2
  let search := (match q.search with | some s => strTrim s | none => "")
  let sortParam := (match q.sort with | some s => strTrim s | none => "createdAt:desc")
  let fd := parseSortPair sortParam
  let filtered := store.filter (matchesFilter ownerFilter search)
  let total := filtered.length
  let sorted := sortTasks (sortLe fd.1 fd.2) filtered
  let skip := ((page - 1) * limit).toNat
  let items := (sorted.drop skip).take limit.toNat
  let totalPages := max 1 ((total + limit.toNat - 1) / limit.toNat)
  { items := items, page := page, limit := limit, total := total, totalPages := totalPages }

/-- `getAllTasks` (taskRoutes.ts lines 65-114): no ownership filter at
all — the store is queried across every user. -/
def getAllTasks (q : ListQuery) (store : List Task) : ListOutcome :=
  ListOutcome.ok (runListQuery none q store)

/-- `getTasks` (taskRoutes.ts lines 121-184): the owner-scoped list.
Falsy `req.user?.id` rejects 401; a malformed id rejects 400; otherwise
the shared pipeline runs with `createdBy` fixed to the caller. -/
def getTasks (user : Option ReqUser) (q : ListQuery) (store : List Task) : ListOutcome :=
  match user with
  | none => ListOutcome.err 401 "User not authenticated."
  | some u =>
    if u.id == "" then ListOutcome.err 401 "User not authenticated."
    else if isValidObjectId u.id then ListOutcome.ok (runListQuery (some u.id) q store)
    else ListOutcome.err 400 "Invalid user id."

/-- The route actually wired to `GET /api/v1/tasks` (server.ts line 39,
comment "Get All Tasks for Current User"): after `authMiddleware`, the
handler invoked is `getAllTasks`, which ignores the caller entirely. -/
def ownedListRoute (_user : Option ReqUser) (q : ListQuery) (store : List Task) :
    ListOutcome :=
  getAllTasks q store

/-! ### Create / update / delete handlers -/

/-- Body fields of a create or update request; `none` models an absent
field. -/
structure TaskBody where
  title : Option String
  description : Option String
  status : Option String
  deriving DecidableEq, Repr

/-- Outcome of a single-task handler. -/
inductive TaskOutcome where
  | err (status : Nat) (message : String)
  | ok (status : Nat) (t : Task)
  deriving DecidableEq, Repr

/-- JavaScript truthiness of an optional string field: present and
non-empty. -/
def truthy : Option String → Bool
  | none => false
  | some s => s != ""

/-- `task.save()` after mutating the document found by `findOne`:
replace the first store entry matching the lookup predicate. -/
def saveReplacing (p : Task → Bool) (t2 : Task) : List Task → List Task
  | [] => []
  | t :: ts => if p t then t2 :: ts else t :: saveReplacing p t2 ts

/-- `createTask` (taskRoutes.ts lines 23-63).  The route runs behind
`authMiddleware`, so `req.user` is present and `userId` is its `id`
string.  Empty/absent title rejects 400; then
`new mongoose.Types.ObjectId(userId)` throws on a malformed id and the
catch block answers 500; otherwise the document is created with trimmed
title, `description?.trim() || ""`, and `status || "pending"` (no enum
check on create). -/
def createTask (userId : String) (newId : String) (now : Nat) (body : TaskBody)
    (store : List Task) : TaskOutcome × List Task :=
  if !truthy body.title || strTrim (body.title.getD "") == "" then
    (TaskOutcome.err 400 "Title is required to create a task.", store)
  else if isValidObjectId userId then
    let t : Task :=
      { id := newId
        title := strTrim (body.title.getD "")
        description := strTrim (body.description.getD "")
        status := if truthy body.status then body.status.getD "" else "pending"
        createdBy := userId
        createdAt := now }
    (TaskOutcome.ok 201 t, store ++ [t])
  else
    (TaskOutcome.err 500 "Internal server error while creating task.", store)

/-- `updateTask` (taskRoutes.ts lines 233-302): validate the task id,
require at least one truthy field, validate a supplied status against
exactly `"pending"`/`"completed"` (the raw value, before any
lower-casing), look the task up scoped to the caller
(`new ObjectId(userId)` throwing on a malformed caller id → 500), then
overwrite only the truthy fields — title/description re-trimmed, status
lower-cased — and save. -/
def updateTask (userId : String) (taskId : Option String) (body : TaskBody)
    (store : List Task) : TaskOutcome × List Task :=
  match taskId with
  | none => (TaskOutcome.err 400 "Task ID is required.", store)
  | some tid =>
    if tid == "" then (TaskOutcome.err 400 "Task ID is required.", store)
    else if !isValidObjectId tid then
      (TaskOutcome.err 400 "Invalid task ID format.", store)
    else if !(truthy body.title || truthy body.description || truthy body.status) then
      (TaskOutcome.err 400
        "Please provide at least one field to update (title, description, or status).",
        store)
    else if truthy body.status
        && !(body.status.getD "" == "pending" || body.status.getD "" == "completed") then
      (TaskOutcome.err 400 "Status must be either \x27pending\x27 or \x27completed\x27.",
        store)
    else if !isValidObjectId userId then
      (TaskOutcome.err 500 "Internal server error while updating task.", store)
    else
      match store.find? (fun t => t.id == tid && t.createdBy == userId) with
      | none =>
        (TaskOutcome.err 404 "Task not found or you don\x27t have permission to update it.",
          store)
      | some t =>
        let t2 : Task :=
          { t with
            title := if truthy body.title then strTrim (body.title.getD "") else t.title
            description :=
              if truthy body.description then strTrim (body.description.getD "")
              else t.description
            status :=
              if truthy body.status then strToLower (body.status.getD "") else t.status }
        (TaskOutcome.ok 200 t2,
          saveReplacing (fun t => t.id == tid && t.createdBy == userId) t2 store)

/-- `deleteTask` (taskRoutes.ts lines 305-347): validate the task id,
then `findOneAndDelete({_id})` — by id alone, with no `createdBy` in the
filter (the `userId` read on line 307 is never used). -/
def deleteTask (taskId : Option String) (store : List Task) :
    TaskOutcome × List Task :=
  match taskId with
  | none => (TaskOutcome.err 400 "Task ID is required.", store)
  | some tid =>
    if tid == "" then (TaskOutcome.err 400 "Task ID is required.", store)
    else if !isValidObjectId tid then
      (TaskOutcome.err 400 "Invalid task ID format.", store)
    else
      match store.find? (fun t => t.id == tid) with
      | none =>
        (TaskOutcome.err 404 "Task not found or you don\x27t have permission to delete it.",
          store)
      | some t => (TaskOutcome.ok 200 t, store.eraseP (fun t => t.id == tid))

/-! ### Token service and the Authenticate / RequireAdmin interceptors -/

/-- The claims encoded in a token: `{id, role}` plus the expiry stamp
the library adds for `expiresIn: "7d"`. -/
structure JwtPayload where
  id : String
  role : String
  exp : Nat
  deriving DecidableEq, Repr

/-- The error classes of `jwt.verify` distinguished by the middleware:
`TokenExpiredError`, `JsonWebTokenError` (malformed token or bad
signature), and any other thrown error. -/
inductive JwtError where
  | tokenExpired
  | jsonWebTokenError
  | other
  deriving DecidableEq, Repr

/-- A token as a byte string split into its signed part and its
signature, so that byte-level tampering can act on either. -/
structure JwtToken where
  body : List Nat
  sig : List Nat
  deriving DecidableEq, Repr

/-- Length-prefixed byte encoding of a string inside the token body. -/
def encodeStr (s : String) : List Nat :=
  s.toList.length :: s.toList.map Char.toNat

/-- Byte encoding of the payload `{id, role, exp}`. -/
def encodePayload (p : JwtPayload) : List Nat :=
  encodeStr p.id ++ (encodeStr p.role ++ [p.exp])

/-- Decoder for one length-prefixed string, returning the remainder. -/
def decodeStr (l : List Nat) : Option (String × List Nat) :=
  match l with
  | [] => none
  | n :: rest =>
    if n ≤ rest.length then
      some (String.mk ((rest.take n).map Char.ofNat), rest.drop n)
    else none

/-- Decoder for a token body back into a payload. -/
def decodePayload (l : List Nat) : Option JwtPayload :=
  match decodeStr l with
  | none => none
  | some (i, r1) =>
    match decodeStr r1 with
    | none => none
    | some (ro, r2) =>
      match r2 with
      | [e] => some { id := i, role := ro, exp := e }
      | _ => none

/-- Modelled from the spec: the token-signing primitive is an external
cryptographic library (§1 non-goals); the spec requires only that the
signature binds the signed bytes under the secret (§4.2, §8 tamper
property).  It is modelled as an ideal unforgeable tag, injective in the
signed bytes for a fixed secret. -/
def jwtSign (secret : List Nat) (body : List Nat) : List Nat :=
  secret ++ body

/-- Modelled from the spec: `jwt.verify` of the external library, per
§4.2 — `verify(tokenString) → {id, role} | fails(Expired | Invalid)`,
distinguishing expiry from structural/signature invalidity, with the
signature checked before the expiry claim (§8: tampering never yields
`Expired`). -/
def jwtVerify (secret : List Nat) (now : Nat) (t : JwtToken) :
    Except JwtError JwtPayload :=
  if t.sig == jwtSign secret t.body then
    match decodePayload t.body with
    | some p => if p.exp ≤ now then Except.error JwtError.tokenExpired else Except.ok p
    | none => Except.error JwtError.jsonWebTokenError
  else
    Except.error JwtError.jsonWebTokenError

/-- `expiresIn: "7d"` in seconds. -/
def sevenDays : Nat := 7 * 24 * 60 * 60

/-- `generateToken` (authRoutes): sign `{id, role}` with the shared
secret and a 7-day expiry. -/
def generateToken (secret : List Nat) (now : Nat) (userId : String) (role : String) :
    JwtToken :=
  let body := encodePayload { id := userId, role := role, exp := now + sevenDays }
  { body := body, sig := jwtSign secret body }

/-- What the Authenticate interceptor does with a request: short-circuit
with a status/message response, or attach the identity and continue. -/
inductive AuthResult where
  | response (status : Nat) (message : String)
  | proceed (user : ReqUser)
  deriving DecidableEq, Repr

/-- The verification-outcome dispatch of `authMiddleware`
(authMiddleware.ts lines 42-74): success attaches `{id, role}`;
`TokenExpiredError` → 401, `JsonWebTokenError` → 403, anything else
→ 500. -/
def handleVerify (r : Except JwtError JwtPayload) : AuthResult :=
  match r with
  | Except.ok p => AuthResult.proceed { id := p.id, role := p.role }
  | Except.error JwtError.tokenExpired =>
    AuthResult.response 401 "Token has expired. Please log in again."
  | Except.error JwtError.jsonWebTokenError =>
    AuthResult.response 403 "Invalid token. Authorization denied."
  | Except.error JwtError.other =>
    AuthResult.response 500 "Authentication error. Please try again."

/-- `authMiddleware` on an extracted candidate token (header, cookie or
body, already selected): absent → 401 no-token; otherwise verify and
dispatch. -/
def authMiddleware (secret : List Nat) (now : Nat) (token : Option JwtToken) :
    AuthResult :=
  match token with
  | none => AuthResult.response 401 "No token provided, authorization denied. Please log in."
  | some t => handleVerify (jwtVerify secret now t)

/-- Outcome of the RequireAdmin interceptor. -/
inductive GateResult where
  | response (status : Nat) (message : String)
  | next
  deriving DecidableEq, Repr

/-- `isAdminMiddleware` (authMiddleware.ts lines 78-87):
`req.user?.role !== "admin"` rejects 403; an absent context reads as
`undefined`, modelled by the empty string, which is likewise not
`"admin"`. -/
def isAdminMiddleware (user : Option ReqUser) : GateResult :=
  if !((match user with | some u => u.role | none => "") == "admin") then
    GateResult.response 403 "Access denied. Admins only."
  else GateResult.next

/-! ### Shared fixtures and helper lemmas -/

/-- A concrete stored task owned by user `aaaaaaaaaaaaaaaaaaaaaaaa`. -/
def sampleTask : Task :=
  { id := "cccccccccccccccccccccccc", title := "buy milk", description := "",
    status := "pending", createdBy := "aaaaaaaaaaaaaaaaaaaaaaaa", createdAt := 1 }

/-- A list request with every query parameter absent. -/
def emptyListQuery : ListQuery :=
  { page := none, limit := none, search := none, sort := none }

theorem mem_orderedInsert {le : Task → Task → Bool} {a x : Task} {l : List Task} :
    x ∈ orderedInsert le a l ↔ x = a ∨ x ∈ l := by
  induction l with
  | nil => simp [orderedInsert]
  | cons b bs ih =>
    by_cases h : le a b
    · simp [orderedInsert, h, List.mem_cons]
    · simp [orderedInsert, h, List.mem_cons, ih]
      tauto

theorem mem_sortTasks {le : Task → Task → Bool} {x : Task} {l : List Task} :
    x ∈ sortTasks le l ↔ x ∈ l := by
  induction l with
  | nil => simp [sortTasks]
  | cons a as ih => simp [sortTasks, mem_orderedInsert, ih, List.mem_cons]

/-! ### C3 — pagination parameter coercion -/

/-- C3: for every list request, `page` defaults to 1, is floored, and any
NaN or below-1 value coerces to 1; `limit` defaults to 10, is floored,
always lands in [1, 100] with values above 100 clamped; in particular a
requested limit of 500 becomes 100 and a requested page of 0 or -5
becomes 1. -/
theorem pagination_param_coercion :
    (∀ lQ, (parsePaginationParams none lQ).1 = 1) ∧
    (∀ pQ, (parsePaginationParams pQ none).2 = 10) ∧
    (∀ q : ℚ, 1 ≤ q → ∀ lQ, (parsePaginationParams (some (JsNum.num q)) lQ).1 = ⌊q⌋) ∧
    (∀ q : ℚ, q < 1 → ∀ lQ, (parsePaginationParams (some (JsNum.num q)) lQ).1 = 1) ∧
    (∀ lQ, (parsePaginationParams (some JsNum.nan) lQ).1 = 1) ∧
    (∀ q : ℚ, 1 ≤ q → ∀ pQ,
      (parsePaginationParams pQ (some (JsNum.num q))).2 = min ⌊q⌋ 100) ∧
    (∀ pQ lQ, 1 ≤ (parsePaginationParams pQ lQ).1 ∧
      1 ≤ (parsePaginationParams pQ lQ).2 ∧ (parsePaginationParams pQ lQ).2 ≤ 100) ∧
    (∀ pQ, (parsePaginationParams pQ (some (JsNum.num 500))).2 = 100) ∧
    (∀ lQ, (parsePaginationParams (some (JsNum.num 0)) lQ).1 = 1) ∧
    (∀ lQ, (parsePaginationParams (some (JsNum.num (-5))) lQ).1 = 1) := by
  refine ⟨?_, ?_, ?_, ?_, ?_, ?_, ?_, ?_, ?_, ?_⟩
  · intro lQ; norm_num [parsePaginationParams]
  · intro pQ; norm_num [parsePaginationParams]
  · intro q hq lQ
    have h : ¬ q < 1 := not_lt.mpr hq
    simp [parsePaginationParams, h]
  · intro q hq lQ
    simp [parsePaginationParams, hq]
  · intro lQ; simp [parsePaginationParams]
  · intro q hq pQ
    have h : ¬ q < 1 := not_lt.mpr hq
    simp [parsePaginationParams, h]
  · intro pQ lQ
    refine ⟨?_, ?_, ?_⟩
    · rcases pQ with _ | v
      · norm_num [parsePaginationParams]
      · rcases v with _ | q
        · simp [parsePaginationParams]
        · by_cases h : q < 1
          · simp [parsePaginationParams, h]
          · have h1 : (1 : ℚ) ≤ q := not_lt.mp h
            simp only [parsePaginationParams, Option.getD_some, if_neg h]
            exact Int.le_floor.mpr (by exact_mod_cast h1)
    · rcases lQ with _ | v
      · norm_num [parsePaginationParams]
      · rcases v with _ | q
        · norm_num [parsePaginationParams]
        · by_cases h : q < 1
          · simp [parsePaginationParams, h]
          · have h1 : (1 : ℚ) ≤ q := not_lt.mp h
            simp only [parsePaginationParams, Option.getD_some, if_neg h]
            exact le_min (Int.le_floor.mpr (by exact_mod_cast h1)) (by norm_num)
    · rcases lQ with _ | v
      · norm_num [parsePaginationParams]
      · rcases v with _ | q
        · norm_num [parsePaginationParams]
        · by_cases h : q < 1
          · simp [parsePaginationParams, h]
          · simp only [parsePaginationParams, Option.getD_some, if_neg h]
            exact min_le_right _ _
  · intro pQ
    have h : ¬ (500 : ℚ) < 1 := by norm_num
    simp [parsePaginationParams, h]
  · intro lQ
    have h : (0 : ℚ) < 1 := by norm_num
    simp [parsePaginationParams, h]
  · intro lQ
    have h : (-5 : ℚ) < 1 := by norm_num
    simp [parsePaginationParams, h]

/-- Witness for C3 at concrete inputs: page 5/2 floors to 2, limit 500
clamps to 100. -/
theorem pagination_param_coercion_witness :
    1 ≤ (5 : ℚ) / 2 ∧
      (parsePaginationParams (some (JsNum.num (5 / 2))) none).1 = ⌊(5 : ℚ) / 2⌋ ∧
      (parsePaginationParams none (some (JsNum.num 500))).2 = 100 := by
  refine ⟨by norm_num, ?_, ?_⟩
  · exact pagination_param_coercion.2.2.1 (5 / 2) (by norm_num) none
  · exact pagination_param_coercion.2.2.2.2.2.2.2.1 none

/-! ### C5 — sort direction mapping -/

/-- C5 counterexample: the direction string `"ASC"` differs from `"asc"`,
so under the claim it should map to descending (-1); the code lower-cases
the direction first and maps it to ascending (1). -/
theorem sort_direction_claim_counterexample :
    ("ASC" : String) ≠ "asc" ∧ (parseSortPair "title:ASC").2 = 1 ∧
      (parseSortPair "title:ASC").2 ≠ -1 := by
  exact ⟨by decide, by decide, by decide⟩

/-- C5 (amended): the direction is compared case-insensitively — a
direction whose lower-casing is `"asc"` maps to ascending and any other
direction (including absent, via the `"desc"` destructuring default)
maps to descending; the default sort parameter `"createdAt:desc"` parses
to `createdAt` descending. -/
theorem sort_direction_mapping :
    (∀ s : String, strToLower (((splitColon s)[1]?).getD "desc") = "asc" →
      (parseSortPair s).2 = 1) ∧
    (∀ s : String, strToLower (((splitColon s)[1]?).getD "desc") ≠ "asc" →
      (parseSortPair s).2 = -1) ∧
    parseSortPair "createdAt:desc" = ("createdAt", -1) := by
  refine ⟨?_, ?_, by decide⟩
  · intro s h
    simp [parseSortPair, h]
  · intro s h
    have hb : (strToLower (((splitColon s)[1]?).getD "desc") == "asc") = false :=
      beq_eq_false_iff_ne.mpr h
    simp [parseSortPair, hb]

/-- Witness for C5 (amended) at concrete inputs. -/
theorem sort_direction_mapping_witness :
    strToLower (((splitColon "title:asc")[1]?).getD "desc") = "asc" ∧
      (parseSortPair "title:asc").2 = 1 ∧
      strToLower (((splitColon "title:garbage")[1]?).getD "desc") ≠ "asc" ∧
      (parseSortPair "title:garbage").2 = -1 := by
  refine ⟨by decide, sort_direction_mapping.1 "title:asc" (by decide), by decide,
    sort_direction_mapping.2.1 "title:garbage" (by decide)⟩

/-! ### C9 — RequireAdmin gate -/

/-- C9: the RequireAdmin interceptor proceeds exactly when the attached
context role is the string `"admin"`; every other request — including
one with no identity attached at all — is answered with 403 and the
admins-only message, never a crash (the interceptor is a total
function). -/
theorem requireAdmin_gate :
    (∀ user, isAdminMiddleware user = GateResult.next ↔
      ∃ u, user = some u ∧ u.role = "admin") ∧
    (∀ user, isAdminMiddleware user = GateResult.next ∨
      isAdminMiddleware user = GateResult.response 403 "Access denied. Admins only.") ∧
    isAdminMiddleware none = GateResult.response 403 "Access denied. Admins only." := by
  refine ⟨?_, ?_, by decide⟩
  · intro user
    rcases user with _ | u
    · simp [isAdminMiddleware]
    · by_cases h : u.role = "admin"
      · simp [isAdminMiddleware, h]
      · have hb : (u.role == "admin") = false := beq_eq_false_iff_ne.mpr h
        simp [isAdminMiddleware, hb, h]
  · intro user
    rcases user with _ | u
    · right; decide
    · by_cases h : u.role = "admin"
      · left; simp [isAdminMiddleware, h]
      · right
        have hb : (u.role == "admin") = false := beq_eq_false_iff_ne.mpr h
        simp [isAdminMiddleware, hb]

/-! ### C1 — ownership isolation of the owned-list route -/

/-- C1 (code-bug evidence): `GET /api/v1/tasks` is wired to
`getAllTasks` (server.ts line 39, under the comment "Get All Tasks for
Current User"), which applies no ownership filter: with a store holding
exactly one task created by user `aaaa…`, authenticated user `bbbb…`
receives that task (1 item, not 0).  The owner-scoped handler
`getTasks`, which the repository never wires to any route, returns 0
items on the same request. -/
theorem ownedList_route_leaks_across_users :
    ownedListRoute (some { id := "bbbbbbbbbbbbbbbbbbbbbbbb", role := "user" })
        emptyListQuery [sampleTask] =
      ListOutcome.ok
        { items := [sampleTask], page := 1, limit := 10, total := 1, totalPages := 1 } ∧
    sampleTask.createdBy ≠ "bbbbbbbbbbbbbbbbbbbbbbbb" ∧
    getTasks (some { id := "bbbbbbbbbbbbbbbbbbbbbbbb", role := "user" })
        emptyListQuery [sampleTask] =
      ListOutcome.ok { items := [], page := 1, limit := 10, total := 0, totalPages := 1 } := by
  exact ⟨by decide, by decide, by decide⟩

/-! ### C6 — ownership scoping invariant of the owner-scoped list -/

/-- C6: for every owner and every combination of page, limit, search and
sort parameters, every task returned by the owner-scoped list operation
has `createdBy` equal to the requesting owner id. -/
theorem listOwned_ownership_scoping (u : ReqUser) (q : ListQuery) (store : List Task)
    (d : PageData) (h : getTasks (some u) q store = ListOutcome.ok d) :
    ∀ t ∈ d.items, t.createdBy = u.id := by
  intro t ht
  simp only [getTasks] at h
  by_cases h1 : (u.id == "") = true
  · rw [if_pos h1] at h
    exact absurd h (by simp)
  · rw [if_neg h1] at h
    by_cases h2 : isValidObjectId u.id = true
    · rw [if_pos h2] at h
      have hd : runListQuery (some u.id) q store = d := by
        injection h
      subst hd
      simp only [runListQuery] at ht
      have h3 := List.mem_of_mem_take ht
      have h4 := List.mem_of_mem_drop h3
      have h5 := mem_sortTasks.mp h4
      have h6 := (List.mem_filter.mp h5).2
      simp only [matchesFilter, Bool.and_eq_true] at h6
      exact eq_of_beq h6.1
    · rw [if_neg h2] at h
      exact absurd h (by simp)

/-- Witness for C6 on a concrete owner, store and query: the one task
the owner-scoped list returns is owned by the requester. -/
theorem listOwned_ownership_scoping_witness :
    sampleTask.createdBy = ((⟨"aaaaaaaaaaaaaaaaaaaaaaaa", "user"⟩ : ReqUser)).id :=
  listOwned_ownership_scoping ⟨"aaaaaaaaaaaaaaaaaaaaaaaa", "user"⟩
    emptyListQuery [sampleTask] ⟨[sampleTask], 1, 10, 1, 1⟩ (by decide)
    sampleTask (by decide)

/-! ### C7 — delete locates by id alone -/

/-- C7: for every well-formed task id present in the store, `deleteTask`
answers 200 with the matching task and removes it — with no constraint
relating the task's `createdBy` to any caller — and the admin gate
passes any context whose role is exactly `"admin"`, so an
admin-authenticated DELETE of any existing task succeeds with 200. -/
theorem delete_unscoped_by_owner (tid : String) (t : Task) (store : List Task)
    (hv : isValidObjectId tid = true)
    (hf : store.find? (fun x => x.id == tid) = some t) :
    deleteTask (some tid) store =
      (TaskOutcome.ok 200 t, store.eraseP (fun x => x.id == tid)) ∧
    (∀ adminId, isAdminMiddleware (some { id := adminId, role := "admin" }) =
      GateResult.next) := by
  have htid : tid ≠ "" := by
    intro he
    subst he
    exact absurd hv (by decide)
  have hne : (tid == "") = false := beq_eq_false_iff_ne.mpr htid
  constructor
  · simp [deleteTask, hne, hv, hf]
  · intro adminId
    simp [isAdminMiddleware]

/-- Witness for C7: an admin deletes a task created by user `aaaa…`. -/
theorem delete_unscoped_by_owner_witness :
    isValidObjectId "cccccccccccccccccccccccc" = true ∧
    deleteTask (some "cccccccccccccccccccccccc") [sampleTask] =
      (TaskOutcome.ok 200 sampleTask, []) ∧
    isAdminMiddleware (some { id := "eeeeeeeeeeeeeeeeeeeeeeee", role := "admin" }) =
      GateResult.next := by
  have h := delete_unscoped_by_owner "cccccccccccccccccccccccc" sampleTask [sampleTask]
    (by decide) (by decide)
  refine ⟨by decide, ?_, h.2 "eeeeeeeeeeeeeeeeeeeeeeee"⟩
  rw [h.1]
  decide

/-! ### C4 — update status validation -/

/-- C4: when an update supplies a truthy status, the update can succeed
only with the raw status exactly `"pending"` or `"completed"`; any
status outside the enum — in particular any status whose lower-casing
is outside the enum, the spec's reading — is rejected with 400 and the
store is left unchanged. -/
theorem update_status_validation (userId tid : String) (body : TaskBody)
    (store : List Task)
    (htid : isValidObjectId tid = true)
    (hs : truthy body.status = true) :
    ((body.status.getD "" ≠ "pending" ∧ body.status.getD "" ≠ "completed") →
      updateTask userId (some tid) body store =
        (TaskOutcome.err 400 "Status must be either \x27pending\x27 or \x27completed\x27.",
          store)) ∧
    (∀ st ns, updateTask userId (some tid) body store = (TaskOutcome.ok 200 st, ns) →
      body.status.getD "" = "pending" ∨ body.status.getD "" = "completed") ∧
    ((strToLower (body.status.getD "") ≠ "pending" ∧
      strToLower (body.status.getD "") ≠ "completed") →
      updateTask userId (some tid) body store =
        (TaskOutcome.err 400 "Status must be either \x27pending\x27 or \x27completed\x27.",
          store)) := by
  have htid0 : tid ≠ "" := by
    intro he
    subst he
    exact absurd htid (by decide)
  have hbne : (tid == "") = false := beq_eq_false_iff_ne.mpr htid0
  have hone : (truthy body.title || truthy body.description || truthy body.status)
      = true := by
    simp [hs]
  refine ⟨?_, ?_, ?_⟩
  · rintro ⟨hp, hc⟩
    have hp2 : (body.status.getD "" == "pending") = false := beq_eq_false_iff_ne.mpr hp
    have hc2 : (body.status.getD "" == "completed") = false := beq_eq_false_iff_ne.mpr hc
    simp [updateTask, hbne, htid, hone, hs, hp2, hc2]
  · intro st ns h
    by_cases hp : body.status.getD "" = "pending"
    · exact Or.inl hp
    by_cases hc : body.status.getD "" = "completed"
    · exact Or.inr hc
    exfalso
    have hp2 : (body.status.getD "" == "pending") = false := beq_eq_false_iff_ne.mpr hp
    have hc2 : (body.status.getD "" == "completed") = false := beq_eq_false_iff_ne.mpr hc
    simp [updateTask, hbne, htid, hone, hs, hp2, hc2] at h
  · rintro ⟨hp, hc⟩
    have hp1 : body.status.getD "" ≠ "pending" := by
      intro he
      rw [he] at hp
      exact hp (by decide)
    have hc1 : body.status.getD "" ≠ "completed" := by
      intro he
      rw [he] at hc
      exact hc (by decide)
    have hp2 : (body.status.getD "" == "pending") = false := beq_eq_false_iff_ne.mpr hp1
    have hc2 : (body.status.getD "" == "completed") = false := beq_eq_false_iff_ne.mpr hc1
    simp [updateTask, hbne, htid, hone, hs, hp2, hc2]

/-- Witness for C4: status `"done"` is rejected with 400 and an empty
store is unchanged. -/
theorem update_status_validation_witness :
    isValidObjectId "cccccccccccccccccccccccc" = true ∧
    truthy (some "done") = true ∧
    updateTask "aaaaaaaaaaaaaaaaaaaaaaaa" (some "cccccccccccccccccccccccc")
      ⟨none, none, some "done"⟩ [] =
      (TaskOutcome.err 400 "Status must be either \x27pending\x27 or \x27completed\x27.",
        []) := by
  refine ⟨by decide, by decide, ?_⟩
  exact (update_status_validation "aaaaaaaaaaaaaaaaaaaaaaaa" "cccccccccccccccccccccccc"
    ⟨none, none, some "done"⟩ [] (by decide) (by decide)).1 ⟨by decide, by decide⟩

/-! ### C8 — partial update frame property -/

/-- C8: on a found owned task, updating with only `{status:
"completed"}` flips only the status; in general only truthy supplied
fields are overwritten — title/description re-trimmed, status
lower-cased — and falsy supplied values (absent or empty string) leave
the stored field untouched; id, owner and creation time never change. -/
theorem partial_update_frame (userId tid : String) (t : Task) (store : List Task)
    (hu : isValidObjectId userId = true)
    (htid : isValidObjectId tid = true)
    (hf : store.find? (fun x => x.id == tid && x.createdBy == userId) = some t) :
    updateTask userId (some tid) ⟨none, none, some "completed"⟩ store =
      (TaskOutcome.ok 200 { t with status := "completed" },
        saveReplacing (fun x => x.id == tid && x.createdBy == userId)
          { t with status := "completed" } store) ∧
    (∀ body st ns, updateTask userId (some tid) body store =
        (TaskOutcome.ok 200 st, ns) →
      st.id = t.id ∧ st.createdBy = t.createdBy ∧ st.createdAt = t.createdAt ∧
      st.title = (if truthy body.title then strTrim (body.title.getD "") else t.title) ∧
      st.description =
        (if truthy body.description then strTrim (body.description.getD "")
         else t.description) ∧
      st.status =
        (if truthy body.status then strToLower (body.status.getD "") else t.status) ∧
      ns = saveReplacing (fun x => x.id == tid && x.createdBy == userId) st store) := by
  have htid0 : tid ≠ "" := by
    intro he
    subst he
    exact absurd htid (by decide)
  have hbne : (tid == "") = false := beq_eq_false_iff_ne.mpr htid0
  constructor
  · have hlc : strToLower "completed" = "completed" := by decide
    simp [updateTask, hbne, htid, hu, hf, truthy, hlc]
  · intro body st ns h
    by_cases h1 : (truthy body.title || truthy body.description || truthy body.status)
        = true
    · simp [updateTask, hbne, htid, hu, hf, h1] at h
      split at h
      · exact absurd h (by simp)
      · rw [Prod.mk.injEq] at h
        obtain ⟨hok, hns⟩ := h
        rw [TaskOutcome.ok.injEq] at hok
        obtain ⟨-, hst⟩ := hok
        subst hst
        subst hns
        simp
    · have h1' : (truthy body.title || truthy body.description || truthy body.status)
          = false := by
        simpa using h1
      simp [updateTask, hbne, htid, h1'] at h

/-- Witness for C8: a status-only update of the sample task leaves title
and description unchanged. -/
theorem partial_update_frame_witness :
    isValidObjectId "aaaaaaaaaaaaaaaaaaaaaaaa" = true ∧
    updateTask "aaaaaaaaaaaaaaaaaaaaaaaa" (some "cccccccccccccccccccccccc")
      ⟨none, none, some "completed"⟩ [sampleTask] =
      (TaskOutcome.ok 200 { sampleTask with status := "completed" },
        [{ sampleTask with status := "completed" }]) := by
  refine ⟨by decide, ?_⟩
  have h := (partial_update_frame "aaaaaaaaaaaaaaaaaaaaaaaa" "cccccccccccccccccccccccc"
    sampleTask [sampleTask] (by decide) (by decide) (by decide)).1
  rw [h]
  decide

/-! ### C10 — create skips caller-id validation, the owned list checks it -/

/-- C10 counterexample: the empty string is not a well-formed ObjectId,
and `createTask` answers 500 on it as the claim says — but the
owner-scoped list hits its earlier falsy-id check and answers 401
`"User not authenticated."`, not the claimed 400 `"Invalid user id."`. -/
theorem create_vs_list_claim_counterexample :
    isValidObjectId "" = false ∧
    (createTask "" "dddddddddddddddddddddddd" 0 ⟨some "buy milk", none, none⟩ []).1 =
      TaskOutcome.err 500 "Internal server error while creating task." ∧
    getTasks (some { id := "", role := "user" }) emptyListQuery [] =
      ListOutcome.err 401 "User not authenticated." ∧
    getTasks (some { id := "", role := "user" }) emptyListQuery [] ≠
      ListOutcome.err 400 "Invalid user id." := by
  exact ⟨by decide, by decide, by decide, by decide⟩

/-- C10 (amended): for every create request with a valid non-empty title
whose context user id is malformed, the ObjectId construction fails and
`createTask` answers 500, whereas the owner-scoped list answers 400
`"Invalid user id."` for the same id provided it is non-empty (the empty
string instead trips the earlier falsy check and yields 401). -/
theorem create_skips_userid_validation (uid newId : String) (now : Nat) (role : String)
    (title : String) (dOpt sOpt : Option String) (q : ListQuery) (store : List Task)
    (hinv : isValidObjectId uid = false) (hne : uid ≠ "")
    (ht : strTrim title ≠ "") :
    (createTask uid newId now ⟨some title, dOpt, sOpt⟩ store).1 =
      TaskOutcome.err 500 "Internal server error while creating task." ∧
    getTasks (some { id := uid, role := role }) q store =
      ListOutcome.err 400 "Invalid user id." := by
  have ht0 : title ≠ "" := by
    intro he
    subst he
    exact ht (by decide)
  have htr : (strTrim title == "") = false := beq_eq_false_iff_ne.mpr ht
  have hne2 : (uid == "") = false := beq_eq_false_iff_ne.mpr hne
  constructor
  · simp [createTask, truthy, ht0, htr, hinv]
  · simp [getTasks, hne2, hinv]

/-- Witness for C10 (amended) at the malformed non-empty id `"xyz"`. -/
theorem create_skips_userid_validation_witness :
    isValidObjectId "xyz" = false ∧ ("xyz" : String) ≠ "" ∧ strTrim "buy milk" ≠ "" ∧
    (createTask "xyz" "dddddddddddddddddddddddd" 0 ⟨some "buy milk", none, none⟩ []).1 =
      TaskOutcome.err 500 "Internal server error while creating task." ∧
    getTasks (some { id := "xyz", role := "user" }) emptyListQuery [] =
      ListOutcome.err 400 "Invalid user id." := by
  have h := create_skips_userid_validation "xyz" "dddddddddddddddddddddddd" 0 "user"
    "buy milk" none none emptyListQuery [] (by decide) (by decide) (by decide)
  exact ⟨by decide, by decide, by decide, h.1, h.2⟩

/-! ### C2 — token verification failure discrimination -/

theorem set_ne_self {l : List Nat} {i : Nat} {v : Nat} (h : i < l.length)
    (hv : v ≠ l.get ⟨i, h⟩) : l.set i v ≠ l := by
  intro he
  apply hv
  have h1 : (l.set i v)[i]? = l[i]? := by rw [he]
  rw [List.getElem?_set_self (by simpa using h), List.getElem?_eq_getElem h] at h1
  exact Option.some.inj h1

theorem decodeStr_encodeStr (s : String) (r : List Nat) :
    decodeStr (encodeStr s ++ r) = some (s, r) := by
  have hlen : (s.toList.map Char.toNat).length = s.toList.length :=
    List.length_map _ _
  have htake : (s.toList.map Char.toNat ++ r).take s.toList.length
      = s.toList.map Char.toNat := List.take_left' hlen
  have hdrop : (s.toList.map Char.toNat ++ r).drop s.toList.length = r :=
    List.drop_left' hlen
  simp only [encodeStr, decodeStr, List.cons_append]
  rw [if_pos]
  · rw [htake, hdrop]
    have h2 : (s.toList.map Char.toNat).map Char.ofNat = s.toList := by
      rw [List.map_map]
      simp [Function.comp_def, Char.ofNat_toNat]
    rw [h2]
    cases s
    rfl
  · rw [List.length_append, hlen]
    exact Nat.le_add_right _ _

theorem decodePayload_encodePayload (p : JwtPayload) :
    decodePayload (encodePayload p) = some p := by
  simp only [encodePayload, decodePayload, decodeStr_encodeStr]

theorem generateToken_sig (secret : List Nat) (now : Nat) (uid role : String) :
    (generateToken secret now uid role).sig =
      jwtSign secret (generateToken secret now uid role).body := rfl

theorem jwtVerify_generateToken_expired (secret : List Nat) (now now2 : Nat)
    (uid role : String) (h : now + sevenDays ≤ now2) :
    jwtVerify secret now2 (generateToken secret now uid role) =
      Except.error JwtError.tokenExpired := by
  simp [generateToken, jwtVerify, jwtSign, decodePayload_encodePayload, h]

theorem jwtVerify_tampered_body (secret : List Nat) (now now2 : Nat)
    (uid role : String) (i v : Nat)
    (h : i < (generateToken secret now uid role).body.length)
    (hv : v ≠ (generateToken secret now uid role).body.get ⟨i, h⟩) :
    jwtVerify secret now2
      ⟨(generateToken secret now uid role).body.set i v,
        (generateToken secret now uid role).sig⟩ =
      Except.error JwtError.jsonWebTokenError := by
  have hne := set_ne_self h hv
  have hss : ((generateToken secret now uid role).sig ==
      jwtSign secret ((generateToken secret now uid role).body.set i v)) = false := by
    apply beq_eq_false_iff_ne.mpr
    rw [generateToken_sig]
    intro heq
    exact hne ((List.append_cancel_left heq).symm)
  simp [jwtVerify, hss]

theorem jwtVerify_tampered_sig (secret : List Nat) (now now2 : Nat)
    (uid role : String) (i v : Nat)
    (h : i < (generateToken secret now uid role).sig.length)
    (hv : v ≠ (generateToken secret now uid role).sig.get ⟨i, h⟩) :
    jwtVerify secret now2
      ⟨(generateToken secret now uid role).body,
        (generateToken secret now uid role).sig.set i v⟩ =
      Except.error JwtError.jsonWebTokenError := by
  have hne := set_ne_self h hv
  have hss : ((generateToken secret now uid role).sig.set i v ==
      jwtSign secret (generateToken secret now uid role).body) = false := by
    apply beq_eq_false_iff_ne.mpr
    intro heq
    exact hne (by rw [heq, ← generateToken_sig])
  simp [jwtVerify, hss]

/-- C2: the Authenticate interceptor answers an expired (validly signed)
token with 401 and the expiry message; any `JsonWebTokenError`
(malformed token or bad signature) with 403 and the invalid-token
message; any other verification failure with 500; and a token obtained
by tampering one byte of a validly issued token — in its signed part or
in its signature — is rejected 403 Invalid at every clock time, never
401 Expired. -/
theorem auth_token_discrimination :
    (∀ secret now now2 uid role, now + sevenDays ≤ now2 →
      authMiddleware secret now2 (some (generateToken secret now uid role)) =
        AuthResult.response 401 "Token has expired. Please log in again.") ∧
    (handleVerify (Except.error JwtError.jsonWebTokenError) =
      AuthResult.response 403 "Invalid token. Authorization denied.") ∧
    (handleVerify (Except.error JwtError.other) =
      AuthResult.response 500 "Authentication error. Please try again.") ∧
    (∀ secret now now2 uid role i v,
      (∀ h : i < (generateToken secret now uid role).body.length,
        v ≠ (generateToken secret now uid role).body.get ⟨i, h⟩ →
        authMiddleware secret now2
          (some ⟨(generateToken secret now uid role).body.set i v,
            (generateToken secret now uid role).sig⟩) =
          AuthResult.response 403 "Invalid token. Authorization denied.") ∧
      (∀ h : i < (generateToken secret now uid role).sig.length,
        v ≠ (generateToken secret now uid role).sig.get ⟨i, h⟩ →
        authMiddleware secret now2
          (some ⟨(generateToken secret now uid role).body,
            (generateToken secret now uid role).sig.set i v⟩) =
          AuthResult.response 403 "Invalid token. Authorization denied.")) := by
  refine ⟨?_, rfl, rfl, ?_⟩
  · intro secret now now2 uid role h
    show handleVerify (jwtVerify secret now2 (generateToken secret now uid role)) = _
    rw [jwtVerify_generateToken_expired secret now now2 uid role h]
    rfl
  · intro secret now now2 uid role i v
    constructor
    · intro h hv
      show handleVerify (jwtVerify secret now2 _) = _
      rw [jwtVerify_tampered_body secret now now2 uid role i v h hv]
      rfl
    · intro h hv
      show handleVerify (jwtVerify secret now2 _) = _
      rw [jwtVerify_tampered_sig secret now now2 uid role i v h hv]
      rfl

/-- Witness for C2 on a concrete secret, clock and token: expiry after
7 days yields 401, a one-byte tamper of the signed part yields 403. -/
theorem auth_token_discrimination_witness :
    100 + sevenDays ≤ 700000 ∧
    authMiddleware [7, 7] 700000 (some (generateToken [7, 7] 100 "u1" "user")) =
      AuthResult.response 401 "Token has expired. Please log in again." ∧
    authMiddleware [7, 7] 200
      (some ⟨(generateToken [7, 7] 100 "u1" "user").body.set 0 99,
        (generateToken [7, 7] 100 "u1" "user").sig⟩) =
      AuthResult.response 403 "Invalid token. Authorization denied." := by
  refine ⟨by decide,
    auth_token_discrimination.1 [7, 7] 100 700000 "u1" "user" (by decide), ?_⟩
  exact (auth_token_discrimination.2.2.2 [7, 7] 100 200 "u1" "user" 0 99).1
    (by decide) (by decide)

end TaskManager
